import Mathlib

/-!
Verification of the coder overlay-networking subsystem specification
against the repository sources.

The tailnet Engine implementation itself is not among the sampled source
files (only its test, `tailnet/tailnet_test.go`, is), so the Engine, the
address allocator and the coordination session are modelled from the
specification text (sections 3, 4.1, 4.2, 4.4 of the spec).  The
`coderd` and `enterprise/coderd` claims are embedded directly from the
Go sources.
-/

namespace Tailnet

/-- Modelled from the spec: error taxonomy of section 7.  The Engine
implementation is missing from the sampled sources. -/
inductive EngineError where
  | ConfigurationError
  | AddressSpaceExhausted
  | StaleDescriptor
  | Unreachable
  | UnknownPeer
  | Closed
  deriving DecidableEq, Repr

/-- Modelled from the spec: NodeDescriptor of section 3 (identity key,
virtual addresses, endpoint candidates, preferred relay, sequence
counter).  Keys, addresses, endpoints and relay identifiers are
abstracted as naturals. -/
structure NodeDescriptor where
  identityKey : Nat
  virtualAddresses : List Nat
  endpoints : List Nat
  preferredRelay : Nat
  sequence : Nat
  deriving DecidableEq, Repr

/-- Modelled from the spec: the per-peer path-selection states of
section 4.2. -/
inductive PeerState where
  | unknown
  | handshaking
  | direct
  | relayed
  | stale
  deriving DecidableEq, Repr

/-- Modelled from the spec: PeerConnection of section 3, keyed by the
peer identity key inside the Engine's peer table. -/
structure PeerConnection where
  state : PeerState
  lastDescriptor : NodeDescriptor
  deriving DecidableEq, Repr

/-- Modelled from the spec: Engine creation options of section 4.2
(`addresses`, `relayMap`, `logger`).  The logger is abstracted as a
name. -/
structure Options where
  addresses : List Nat
  relayMap : List Nat
  logger : Nat
  deriving DecidableEq, Repr

/-- Modelled from the spec: the Connectivity Engine state of section
4.2 — bound virtual addresses, relay map, own descriptor sequence and
endpoints, the peer-connection table keyed by identity key, the set of
listening ports, and the closed flag.  The identity key is generated at
creation; key generation is abstracted as an input to `New`. -/
structure Engine where
  key : Nat
  addresses : List Nat
  relayMap : List Nat
  seq : Nat
  endpoints : List Nat
  peers : List (Nat × PeerConnection)
  listening : List Nat
  closed : Bool
  deriving DecidableEq, Repr

/-- Modelled from the spec: `create(options)` of section 4.2, named
`New` after the call site in `tailnet_test.go`.  Fails with
`ConfigurationError` if no addresses are supplied; otherwise returns a
fresh Engine bound to the supplied addresses and relay map. -/
def New (key : Nat) (opts : Options) : Except EngineError Engine :=
  if opts.addresses.isEmpty then
    Except.error EngineError.ConfigurationError
  else
    Except.ok
      { key := key
        addresses := opts.addresses
        relayMap := opts.relayMap
        seq := 1
        endpoints := []
        peers := []
        listening := []
        closed := false }

/-- Modelled from the spec: the Engine's own current descriptor, the
value handed to the callback registered by `SetNodeCallback` in the
test. -/
def localDescriptor (e : Engine) : NodeDescriptor :=
  { identityKey := e.key
    virtualAddresses := e.addresses
    endpoints := e.endpoints
    preferredRelay := e.relayMap.headD 0
    sequence := e.seq }

/-- Look up a peer connection by identity key in the Engine's table. -/
def lookupPeer (e : Engine) (k : Nat) : Option PeerConnection :=
  (e.peers.find? (fun p => p.1 == k)).map (fun p => p.2)

/-- Replace the entry for key `k` in a peer table, keeping order. -/
def setPeer (peers : List (Nat × PeerConnection)) (k : Nat)
    (pc : PeerConnection) : List (Nat × PeerConnection) :=
  match peers with
  | [] => [(k, pc)]
  | (k', pc') :: rest =>
    if k' = k then (k, pc) :: rest else (k', pc') :: setPeer rest k pc

/-- Modelled from the spec: the outcome of path selection of section
4.2 — handshake attempts against the candidate endpoints race the relay
path; with no candidate endpoints the connection converges to
`relayed`, otherwise a direct attempt succeeds first in this model. -/
def pathState (d : NodeDescriptor) : PeerState :=
  if d.endpoints.isEmpty then PeerState.relayed else PeerState.direct

/-- The peer connection resulting from applying a fresh descriptor and
running path selection. -/
def mkPeerConnection (d : NodeDescriptor) : PeerConnection :=
  { state := pathState d, lastDescriptor := d }

/-- Modelled from the spec: `applyPeerDescriptor(descriptor)` of
section 4.2.  A descriptor whose sequence is not newer than the one
already applied for that identity is discarded (stale-update
rejection); otherwise the peer connection is created or updated and
path selection runs. -/
def applyPeerDescriptor (e : Engine) (d : NodeDescriptor) : Engine :=
  match lookupPeer e d.identityKey with
  | some pc =>
    if d.sequence ≤ pc.lastDescriptor.sequence then e
    else
      { e with peers := setPeer e.peers d.identityKey (mkPeerConnection d) }
  | none =>
    { e with peers := e.peers ++ [(d.identityKey, mkPeerConnection d)] }

/-- Modelled from the spec: `UpdateNodes` as used in the test — apply
each received descriptor in order. -/
def UpdateNodes (e : Engine) (nodes : List NodeDescriptor) : Engine :=
  nodes.foldl applyPeerDescriptor e

/-- The Engine's effective endpoint set for a peer: the endpoints of
the last descriptor applied for that identity. -/
def effectiveEndpoints (e : Engine) (k : Nat) : Option (List Nat) :=
  (lookupPeer e k).map (fun pc => pc.lastDescriptor.endpoints)

/-- Modelled from the spec: `close()` of section 4.2 — releases all
tunnels and the allocated addresses, stops background work, reports no
error, and is idempotent.  The returned option is the error of the
close call (always absent). -/
def Close (e : Engine) : Engine × Option EngineError :=
  ({ e with peers := [], addresses := [], listening := [], closed := true },
    none)

/-- Modelled from the spec: a stream of the socket shim of section 4.4,
addressed to a virtual address and port, carrying a byte buffer. -/
structure Stream where
  dstAddr : Nat
  port : Nat
  buf : List Nat
  deriving DecidableEq, Repr

/-- Write bytes to a stream (appended to its buffer). -/
def writeBytes (s : Stream) (data : List Nat) : Stream :=
  { s with buf := s.buf ++ data }

/-- Read every buffered byte from a stream. -/
def readAll (s : Stream) : List Nat × Stream :=
  (s.buf, { s with buf := [] })

/-- The peer connection owning a given remote virtual address, if
any. -/
def lookupPeerByAddr (e : Engine) (addr : Nat) : Option PeerConnection :=
  (e.peers.find?
      (fun p => p.2.lastDescriptor.virtualAddresses.contains addr)).map
    (fun p => p.2)

/-- Modelled from the spec: `dial(transportKind, remoteAddress:port)`
of section 4.4.  If no PeerConnection exists for the address at all it
fails immediately with `UnknownPeer`; if the connection is `direct` or
`relayed` a stream is returned; otherwise the dial waits up to the
connection timeout and fails with `Unreachable`.  The timeout argument
is irrelevant to the `UnknownPeer` branch. -/
def dial (e : Engine) (addr port timeout : Nat) :
    Except EngineError Stream :=
  if e.closed then Except.error EngineError.Closed
  else
    match lookupPeerByAddr e addr with
    | none => Except.error EngineError.UnknownPeer
    | some pc =>
      match pc.state with
      | PeerState.direct => Except.ok { dstAddr := addr, port := port, buf := [] }
      | PeerState.relayed => Except.ok { dstAddr := addr, port := port, buf := [] }
      | _ =>
        let _ := timeout
        Except.error EngineError.Unreachable

/-- Modelled from the spec: `listen(transportKind, port)` of section
4.4 — registers a listening port on the Engine. -/
def listen (e : Engine) (port : Nat) : Except EngineError Engine :=
  if e.closed then Except.error EngineError.Closed
  else Except.ok { e with listening := port :: e.listening }

/-- Modelled from the spec: delivery of an incoming stream to a
listener of section 4.4 — the accept succeeds when the stream is
addressed to one of the Engine's own virtual addresses on a port the
Engine is listening on. -/
def accept (e : Engine) (s : Stream) : Except EngineError Stream :=
  if e.closed then Except.error EngineError.Closed
  else if e.listening.contains s.port && e.addresses.contains s.dstAddr then
    Except.ok s
  else Except.error EngineError.Unreachable

/-- Modelled from the spec: `allocate(requested-prefix)` of section
4.1.  `range` is the reserved private address range and `used` the
addresses already handed out; allocation returns an unused address and
fails with `AddressSpaceExhausted` when the range is depleted. -/
def allocate (range used : List Nat) : Except EngineError Nat :=
  match range.filter (fun a => ! used.contains a) with
  | [] => Except.error EngineError.AddressSpaceExhausted
  | a :: _ => Except.ok a

/-- Modelled from the spec: one participant of a coordination session
(section 3) — an abstract participant identity, its stable identity
key, and its allocated virtual address. -/
structure Participant where
  pid : Nat
  key : Nat
  addr : Nat
  deriving DecidableEq, Repr

/-- Modelled from the spec: CoordinationSession of section 3.
`participants` are the currently present participants;
`keyHistory` records every (identityKey, participant) binding ever made
during the session, so that reuse of a key for a different participant
is observable even after a leave. -/
structure Session where
  participants : List Participant
  keyHistory : List (Nat × Nat)
  deriving DecidableEq, Repr

/-- Modelled from the spec: the Coordinator transitions of section 4.3
as they are exercised by the system.  A `join` brings a participant
whose identity key was generated fresh at Engine creation (never bound
before in this session) and whose virtual address was obtained from the
allocator (unused by any current participant); `leave` removes a
participant. -/
inductive SessionStep : Session → Session → Prop where
  | join (s : Session) (pid key addr : Nat)
      (hkey : ∀ b ∈ s.keyHistory, b.1 ≠ key)
      (haddr : ∀ p ∈ s.participants, p.addr ≠ addr) :
      SessionStep s
        { participants := { pid := pid, key := key, addr := addr } :: s.participants
          keyHistory := (key, pid) :: s.keyHistory }
  | leave (s : Session) (key : Nat) :
      SessionStep s
        { participants := s.participants.filter (fun p => p.key ≠ key)
          keyHistory := s.keyHistory }

/-- A session state reachable from the empty session by Coordinator
transitions. -/
inductive SessionReachable : Session → Prop where
  | init : SessionReachable { participants := [], keyHistory := [] }
  | step {s s' : Session} (h : SessionReachable s) (hs : SessionStep s s') :
      SessionReachable s'

/-- The strengthened inductive invariant for session states: current
participants have pairwise distinct addresses and keys, the key history
binds each key to at most one participant, and every current
participant is recorded in the history. -/
def SessionInv (s : Session) : Prop :=
  s.participants.Pairwise (fun p q => p.addr ≠ q.addr ∧ p.key ≠ q.key) ∧
  (∀ b ∈ s.keyHistory, ∀ b' ∈ s.keyHistory, b.1 = b'.1 → b.2 = b'.2) ∧
  (∀ p ∈ s.participants, (p.key, p.pid) ∈ s.keyHistory)

lemma sessionInv_init :
    SessionInv { participants := [], keyHistory := [] } := by
  refine ⟨List.Pairwise.nil, ?_, ?_⟩ <;> intro b hb <;> simp at hb

lemma sessionInv_step {s s' : Session} (hinv : SessionInv s)
    (hs : SessionStep s s') : SessionInv s' := by
  obtain ⟨hpw, hfun, hmem⟩ := hinv
  cases hs with
  | join pid key addr hkey haddr =>
    refine ⟨?_, ?_, ?_⟩
    · refine List.Pairwise.cons ?_ hpw
      intro q hq
      refine ⟨fun h => haddr q hq h.symm, fun h => ?_⟩
      exact hkey (q.key, q.pid) (hmem q hq) (by simp [← h])
    · intro b hb b' hb' h1
      rcases List.mem_cons.mp hb with hb | hb <;>
        rcases List.mem_cons.mp hb' with hb' | hb'
      · rw [hb, hb']
      · subst hb
        exact absurd h1.symm (hkey b' hb')
      · subst hb'
        exact absurd h1 (hkey b hb)
      · exact hfun b hb b' hb' h1
    · intro p hp
      rcases List.mem_cons.mp hp with hp | hp
      · subst hp
        exact List.mem_cons_self _ _
      · exact List.mem_cons_of_mem _ (hmem p hp)
  | leave key =>
    refine ⟨List.Pairwise.sublist (List.filter_sublist _) hpw, hfun, ?_⟩
    intro p hp
    exact hmem p (List.mem_of_mem_filter hp)

lemma sessionInv_reachable {s : Session} (h : SessionReachable s) :
    SessionInv s := by
  induction h with
  | init => exact sessionInv_init
  | step h hs ih => exact sessionInv_step ih hs

end Tailnet

namespace Tailnet

lemma find?_setPeer_self (peers : List (Nat × PeerConnection)) (k : Nat)
    (pc : PeerConnection) :
    (setPeer peers k pc).find? (fun p => p.1 == k) = some (k, pc) := by
  induction peers with
  | nil => simp [setPeer]
  | cons hd tl ih =>
    obtain ⟨k', pc'⟩ := hd
    by_cases h : k' = k
    · subst h
      simp [setPeer]
    · simp only [setPeer, if_neg h]
      rw [List.find?_cons_of_neg, ih]
      simpa using h

lemma find?_append_of_none {α : Type} (l₁ l₂ : List α) (f : α → Bool)
    (h : l₁.find? f = none) : (l₁ ++ l₂).find? f = l₂.find? f := by
  induction l₁ with
  | nil => simp
  | cons hd tl ih =>
    rw [List.find?_cons] at h
    cases hf : f hd with
    | true => simp [hf] at h
    | false =>
      simp only [hf] at h
      rw [List.cons_append, List.find?_cons_of_neg _ (by simp [hf]), ih h]

/-- After applying a strictly newer descriptor, the peer's stored
connection holds exactly that descriptor. -/
lemma lookupPeer_applyPeerDescriptor_newer (e : Engine) (d : NodeDescriptor)
    (h : ∀ pc, lookupPeer e d.identityKey = some pc →
      pc.lastDescriptor.sequence < d.sequence) :
    lookupPeer (applyPeerDescriptor e d) d.identityKey =
      some (mkPeerConnection d) := by
  unfold applyPeerDescriptor
  cases hl : lookupPeer e d.identityKey with
  | none =>
    unfold lookupPeer at hl ⊢
    rw [show ({ e with peers := e.peers ++ [(d.identityKey, mkPeerConnection d)] } : Engine).peers
        = e.peers ++ [(d.identityKey, mkPeerConnection d)] from rfl,
      find?_append_of_none]
    · simp
    · simpa using hl
  | some pc =>
    have hlt := h pc hl
    simp only [hl, if_neg (Nat.not_le_of_lt hlt)]
    unfold lookupPeer
    rw [show ({ e with peers := setPeer e.peers d.identityKey (mkPeerConnection d) } : Engine).peers
        = setPeer e.peers d.identityKey (mkPeerConnection d) from rfl,
      find?_setPeer_self]
    rfl

end Tailnet

namespace Coderd

/-- The enumeration values of the database type `workspace_app_health`,
from the migration `CREATE TYPE workspace_app_health AS ENUM
(\x27intializing\x27, \x27healthy\x27, \x27unhealthy\x27)`. -/
def workspaceAppHealthEnumValues : List String :=
  ["intializing", "healthy", "unhealthy"]

/-- The column default applied to `workspace_apps.health` by the same
migration: `NOT NULL DEFAULT \x27intializing\x27`. -/
def workspaceAppsHealthDefault : String :=
  "intializing"

/-- The string values of the codersdk `WorkspaceAppHealth` constants:
`WorkspaceAppHealthDisabled`, `WorkspaceAppHealthInitializing`,
`WorkspaceAppHealthHealthy`, `WorkspaceAppHealthUnhealthy`. -/
def codersdkWorkspaceAppHealthValues : List String :=
  ["disabled", "initializing", "healthy", "unhealthy"]

/-- A `database.User`, restricted to the field `convertWorkspaceBuild`
reads. -/
structure User where
  username : String
  deriving DecidableEq, Repr

/-- A `database.Workspace`, restricted to the fields
`convertWorkspaceBuild` reads.  UUIDs are abstracted as naturals. -/
structure Workspace where
  id : Nat
  ownerID : Nat
  name : String
  deriving DecidableEq, Repr

/-- A `database.WorkspaceBuild`, restricted to the fields
`convertWorkspaceBuild` reads. -/
structure WorkspaceBuild where
  id : Nat
  workspaceID : Nat
  templateVersionID : Nat
  buildNumber : Nat
  transition : String
  initiatorID : Nat
  reason : String
  deriving DecidableEq, Repr

/-- The `codersdk.WorkspaceBuild` fields populated by
`convertWorkspaceBuild` that depend on its inputs. -/
structure SdkWorkspaceBuild where
  id : Nat
  workspaceOwnerID : Nat
  workspaceOwnerName : String
  workspaceID : Nat
  workspaceName : String
  templateVersionID : Nat
  buildNumber : Nat
  transition : String
  initiatorID : Nat
  initiatorUsername : String
  reason : String
  deriving DecidableEq, Repr

/-- `convertWorkspaceBuild` from `coderd/workspacebuilds.go`.  The Go
pointers `workspaceOwner` and `buildInitiator` are `Option`s; `none` as
a result models a panic.  The function panics explicitly when the
workspace and build identifiers disagree; the owner name falls back to
"unknown" when `workspaceOwner` is nil; the initiator branch in the
source also tests `workspaceOwner != nil` and then dereferences
`buildInitiator.Username`, which is a nil dereference (panic) when
`buildInitiator` is nil and `workspaceOwner` is not. -/
def convertWorkspaceBuild (workspaceOwner buildInitiator : Option User)
    (workspace : Workspace) (workspaceBuild : WorkspaceBuild) :
    Option SdkWorkspaceBuild :=
  if workspace.id ≠ workspaceBuild.workspaceID then
    none
  else
    let ownerName :=
      match workspaceOwner with
      | some u => u.username
      | none => "unknown"
    match workspaceOwner with
    | none =>
      some
        { id := workspaceBuild.id
          workspaceOwnerID := workspace.ownerID
          workspaceOwnerName := ownerName
          workspaceID := workspaceBuild.workspaceID
          workspaceName := workspace.name
          templateVersionID := workspaceBuild.templateVersionID
          buildNumber := workspaceBuild.buildNumber
          transition := workspaceBuild.transition
          initiatorID := workspaceBuild.initiatorID
          initiatorUsername := "unknown"
          reason := workspaceBuild.reason }
    | some _ =>
      match buildInitiator with
      | none => none
      | some initiator =>
        some
          { id := workspaceBuild.id
            workspaceOwnerID := workspace.ownerID
            workspaceOwnerName := ownerName
            workspaceID := workspaceBuild.workspaceID
            workspaceName := workspace.name
            templateVersionID := workspaceBuild.templateVersionID
            buildNumber := workspaceBuild.buildNumber
            transition := workspaceBuild.transition
            initiatorID := workspaceBuild.initiatorID
            initiatorUsername := initiator.username
            reason := workspaceBuild.reason }

end Coderd

namespace Scim

/-- The responses a SCIM handler of `enterprise/coderd/scim.go` can
write. -/
inductive ScimResponse where
  | unauthorized
  | emptySearchResult
  | errNotFound
  | decodeError
  | invalidEmail
  | invalidId
  | dbError
  | okUser (id username : String)
  deriving DecidableEq, Repr

/-- A database write performed by a SCIM handler: a `CreateUser` call or
an `UpdateUserStatus` call. -/
inductive DBWrite where
  | createUser (username email : String)
  | updateUserStatus (id : Nat) (active : Bool)
  deriving DecidableEq, Repr

/-- The fields of `SCIMUser` the handlers read: the user name, the
email list as (primary, value) pairs, and the active flag. -/
structure SCIMUser where
  userName : String
  emails : List (Bool × String)
  active : Bool
  deriving DecidableEq, Repr

/-- `subtle.ConstantTimeCompare` on byte slices: 1 when the two slices
have equal length and contents, 0 otherwise. -/
def constantTimeCompare (x y : List Nat) : Nat :=
  if x = y then 1 else 0

/-- `scimVerifyAuthHeader` from `enterprise/coderd/scim.go`: the
configured key must be non-empty and the Authorization header must
compare equal to it. -/
def scimVerifyAuthHeader (scimAPIKey hdr : List Nat) : Bool :=
  decide (scimAPIKey.length ≠ 0) &&
    decide (constantTimeCompare hdr scimAPIKey = 1)

/-- `scimGetUsers` from `enterprise/coderd/scim.go`: unauthorized
without a valid header, otherwise an empty search result; no database
write on any path. -/
def scimGetUsers (scimAPIKey hdr : List Nat) :
    ScimResponse × List DBWrite :=
  if ¬ scimVerifyAuthHeader scimAPIKey hdr then
    (ScimResponse.unauthorized, [])
  else
    (ScimResponse.emptySearchResult, [])

/-- `scimGetUser` from `enterprise/coderd/scim.go`: unauthorized
without a valid header, otherwise always not-found; no database write
on any path. -/
def scimGetUser (scimAPIKey hdr : List Nat) :
    ScimResponse × List DBWrite :=
  if ¬ scimVerifyAuthHeader scimAPIKey hdr then
    (ScimResponse.unauthorized, [])
  else
    (ScimResponse.errNotFound, [])

/-- The email-selection loop of `scimPostUser`: the value of the first
email marked primary, or the empty string. -/
def primaryEmail : List (Bool × String) → String
  | [] => ""
  | (primary, value) :: rest =>
    if primary then value else primaryEmail rest

/-- `scimPostUser` from `enterprise/coderd/scim.go`.  The request body
is `none` when JSON decoding fails; `createUser` is the oracle for
`api.AGPL.CreateUser` (its call is recorded as a database write, and it
returns the created user id and username or an error). -/
def scimPostUser (scimAPIKey hdr : List Nat) (body : Option SCIMUser)
    (createUser : String → String → Except Unit (String × String)) :
    ScimResponse × List DBWrite :=
  if ¬ scimVerifyAuthHeader scimAPIKey hdr then
    (ScimResponse.unauthorized, [])
  else
    match body with
    | none => (ScimResponse.decodeError, [])
    | some sUser =>
      let email := primaryEmail sUser.emails
      if email = "" then
        (ScimResponse.invalidEmail, [])
      else
        match createUser sUser.userName email with
        | Except.error _ =>
          (ScimResponse.dbError, [DBWrite.createUser sUser.userName email])
        | Except.ok (uid, uname) =>
          (ScimResponse.okUser uid uname,
            [DBWrite.createUser sUser.userName email])

/-- `scimPatchUser` from `enterprise/coderd/scim.go`.  `uuidParse`
models `uuid.Parse` of the URL parameter, `getUserByID` the database
lookup (returning the user id), and `updateOk` whether the
`UpdateUserStatus` call succeeds; the `UpdateUserStatus` call is
recorded as a database write. -/
def scimPatchUser (scimAPIKey hdr : List Nat) (urlId : String)
    (body : Option SCIMUser) (uuidParse : String → Option Nat)
    (getUserByID : Nat → Option Nat) (updateOk : Bool) :
    ScimResponse × List DBWrite :=
  if ¬ scimVerifyAuthHeader scimAPIKey hdr then
    (ScimResponse.unauthorized, [])
  else
    match body with
    | none => (ScimResponse.decodeError, [])
    | some sUser =>
      match uuidParse urlId with
      | none => (ScimResponse.invalidId, [])
      | some uid =>
        match getUserByID uid with
        | none => (ScimResponse.dbError, [])
        | some dbUserId =>
          let write := DBWrite.updateUserStatus dbUserId sUser.active
          if updateOk then
            (ScimResponse.okUser urlId sUser.userName, [write])
          else
            (ScimResponse.dbError, [write])

end Scim

/-- The first Engine of the concrete scenario of section 8 of the spec:
identity key 1, one /128-style virtual address 1001, relay region 1. -/
def scenarioW1 : Tailnet.Engine :=
  { key := 1, addresses := [1001], relayMap := [1], seq := 1,
    endpoints := [], peers := [], listening := [], closed := false }

/-- The second Engine of the concrete scenario: identity key 2,
virtual address 1002, the same relay region 1. -/
def scenarioW2 : Tailnet.Engine :=
  { key := 2, addresses := [1002], relayMap := [1], seq := 1,
    endpoints := [], peers := [], listening := [], closed := false }

/-- A concrete two-participant coordination session used as a witness
for the uniqueness invariant. -/
def sessionW : Tailnet.Session :=
  { participants := [{ pid := 2, key := 20, addr := 200 },
                     { pid := 1, key := 10, addr := 100 }]
    keyHistory := [(20, 2), (10, 1)] }

/-- Claim C4: Engine creation fails with a ConfigurationError when the
supplied options contain no virtual addresses, and returns an Engine
with no error when at least one virtual address is supplied together
with a relay map and logger. -/
theorem claim_C4_new_requires_addresses (key : Nat) (opts : Tailnet.Options) :
    (opts.addresses = [] →
      Tailnet.New key opts =
        Except.error Tailnet.EngineError.ConfigurationError) ∧
    (opts.addresses ≠ [] → ∃ e, Tailnet.New key opts = Except.ok e) := by
  constructor
  · intro h
    simp [Tailnet.New, h]
  · intro h
    unfold Tailnet.New
    rw [if_neg]
    · exact ⟨_, rfl⟩
    · simpa using h

/-- Witness for C4 at concrete options: no addresses yields
ConfigurationError; one /128-style address with a relay map and logger
yields an Engine. -/
theorem claim_C4_new_requires_addresses_witness :
    Tailnet.New 7 { addresses := [], relayMap := [1], logger := 1 } =
      Except.error Tailnet.EngineError.ConfigurationError ∧
    ∃ e, Tailnet.New 7 { addresses := [1001], relayMap := [1], logger := 1 } =
      Except.ok e :=
  ⟨(claim_C4_new_requires_addresses 7
      { addresses := [], relayMap := [1], logger := 1 }).1 rfl,
   (claim_C4_new_requires_addresses 7
      { addresses := [1001], relayMap := [1], logger := 1 }).2 (by decide)⟩

/-- Claim C3: a dial to a virtual address for which the Engine holds no
PeerConnection fails with UnknownPeer for every timeout value, i.e.
immediately and independently of the connection timeout. -/
theorem claim_C3_dial_unknown_peer (e : Tailnet.Engine)
    (addr port timeout : Nat) (hopen : e.closed = false)
    (hnone : Tailnet.lookupPeerByAddr e addr = none) :
    Tailnet.dial e addr port timeout =
      Except.error Tailnet.EngineError.UnknownPeer := by
  simp [Tailnet.dial, hopen, hnone]

/-- Witness for C3: a freshly created Engine that was never told about
any peer refuses a dial to an unannounced address with UnknownPeer. -/
theorem claim_C3_dial_unknown_peer_witness :
    Tailnet.dial
      { key := 1, addresses := [1001], relayMap := [1], seq := 1,
        endpoints := [], peers := [], listening := [], closed := false }
      4242 80 100000 = Except.error Tailnet.EngineError.UnknownPeer :=
  claim_C3_dial_unknown_peer
    { key := 1, addresses := [1001], relayMap := [1], seq := 1,
      endpoints := [], peers := [], listening := [], closed := false }
    4242 80 100000 rfl rfl

/-- Claim C6: Close is idempotent — a second Close reports no error and
leaves the Engine in the same closed state, with all tunnels and
allocated addresses already released by the first Close. -/
theorem claim_C6_close_idempotent (e : Tailnet.Engine) :
    (Tailnet.Close (Tailnet.Close e).1).2 = none ∧
    (Tailnet.Close (Tailnet.Close e).1).1 = (Tailnet.Close e).1 ∧
    (Tailnet.Close e).1.closed = true ∧
    (Tailnet.Close e).1.peers = [] ∧
    (Tailnet.Close e).1.addresses = [] :=
  ⟨rfl, rfl, rfl, rfl, rfl⟩

/-- Claim C7: when the reserved private range is depleted, allocation
returns the checked error AddressSpaceExhausted; and allocation is
total — it always returns either that error or an address (never a
panic). -/
theorem claim_C7_allocate_exhaustion (range used : List Nat) :
    ((∀ a ∈ range, a ∈ used) →
      Tailnet.allocate range used =
        Except.error Tailnet.EngineError.AddressSpaceExhausted) ∧
    (Tailnet.allocate range used =
        Except.error Tailnet.EngineError.AddressSpaceExhausted ∨
      ∃ a, Tailnet.allocate range used = Except.ok a) := by
  constructor
  · intro h
    have hfil : range.filter (fun a => ! used.contains a) = [] := by
      rw [List.filter_eq_nil_iff]
      intro a ha
      simpa using h a ha
    unfold Tailnet.allocate
    rw [hfil]
  · unfold Tailnet.allocate
    cases range.filter (fun a => ! used.contains a) with
    | nil => exact Or.inl rfl
    | cons a rest => exact Or.inr ⟨a, rfl⟩

/-- Witness for C7: a two-address range whose addresses are both in use
is reported exhausted. -/
theorem claim_C7_allocate_exhaustion_witness :
    Tailnet.allocate [100, 101] [101, 100, 102] =
      Except.error Tailnet.EngineError.AddressSpaceExhausted :=
  (claim_C7_allocate_exhaustion [100, 101] [101, 100, 102]).1 (by decide)

/-- Claim C2: applying a descriptor whose sequence number is less than
or equal to the last applied sequence number for that identity leaves
the Engine unchanged; after applying a descriptor whose sequence number
is strictly greater than the last applied one (or for a previously
unknown identity), the Engine's effective endpoint set for that peer
equals the endpoints of the latest descriptor. -/
theorem claim_C2_descriptor_sequence_law (e : Tailnet.Engine)
    (d : Tailnet.NodeDescriptor) :
    (∀ pc, Tailnet.lookupPeer e d.identityKey = some pc →
      d.sequence ≤ pc.lastDescriptor.sequence →
      Tailnet.applyPeerDescriptor e d = e) ∧
    ((∀ pc, Tailnet.lookupPeer e d.identityKey = some pc →
        pc.lastDescriptor.sequence < d.sequence) →
      Tailnet.effectiveEndpoints (Tailnet.applyPeerDescriptor e d)
        d.identityKey = some d.endpoints) := by
  constructor
  · intro pc hpc hle
    unfold Tailnet.applyPeerDescriptor
    rw [hpc]
    simp [hle]
  · intro h
    unfold Tailnet.effectiveEndpoints
    rw [Tailnet.lookupPeer_applyPeerDescriptor_newer e d h]
    rfl

/-- Witness for C2: an Engine holding a peer at sequence 3 ignores a
replayed sequence-3 descriptor and adopts the endpoints of a sequence-4
descriptor. -/
theorem claim_C2_descriptor_sequence_law_witness :
    Tailnet.applyPeerDescriptor
      { key := 1, addresses := [1001], relayMap := [1], seq := 1,
        endpoints := [], listening := [], closed := false,
        peers := [(5, Tailnet.mkPeerConnection
          { identityKey := 5, virtualAddresses := [1002], endpoints := [9],
            preferredRelay := 1, sequence := 3 })] }
      { identityKey := 5, virtualAddresses := [1002], endpoints := [8],
        preferredRelay := 1, sequence := 3 } =
      { key := 1, addresses := [1001], relayMap := [1], seq := 1,
        endpoints := [], listening := [], closed := false,
        peers := [(5, Tailnet.mkPeerConnection
          { identityKey := 5, virtualAddresses := [1002], endpoints := [9],
            preferredRelay := 1, sequence := 3 })] } ∧
    Tailnet.effectiveEndpoints
      (Tailnet.applyPeerDescriptor
        { key := 1, addresses := [1001], relayMap := [1], seq := 1,
          endpoints := [], listening := [], closed := false,
          peers := [(5, Tailnet.mkPeerConnection
            { identityKey := 5, virtualAddresses := [1002], endpoints := [9],
              preferredRelay := 1, sequence := 3 })] }
        { identityKey := 5, virtualAddresses := [1002], endpoints := [8, 9],
          preferredRelay := 1, sequence := 4 }) 5 = some [8, 9] :=
  ⟨(claim_C2_descriptor_sequence_law
      { key := 1, addresses := [1001], relayMap := [1], seq := 1,
        endpoints := [], listening := [], closed := false,
        peers := [(5, Tailnet.mkPeerConnection
          { identityKey := 5, virtualAddresses := [1002], endpoints := [9],
            preferredRelay := 1, sequence := 3 })] }
      { identityKey := 5, virtualAddresses := [1002], endpoints := [8],
        preferredRelay := 1, sequence := 3 }).1
    (Tailnet.mkPeerConnection
      { identityKey := 5, virtualAddresses := [1002], endpoints := [9],
        preferredRelay := 1, sequence := 3 }) rfl (by decide),
   (claim_C2_descriptor_sequence_law
      { key := 1, addresses := [1001], relayMap := [1], seq := 1,
        endpoints := [], listening := [], closed := false,
        peers := [(5, Tailnet.mkPeerConnection
          { identityKey := 5, virtualAddresses := [1002], endpoints := [9],
            preferredRelay := 1, sequence := 3 })] }
      { identityKey := 5, virtualAddresses := [1002], endpoints := [8, 9],
        preferredRelay := 1, sequence := 4 }).2
    (fun pc hpc => by
      have hpc2 : Tailnet.mkPeerConnection
          { identityKey := 5, virtualAddresses := [1002], endpoints := [9],
            preferredRelay := 1, sequence := 3 } = pc := Option.some.inj hpc
      rw [← hpc2]
      decide)⟩


/-- Claim C8: every enumeration value of the database type
workspace_app_health, including the column default applied to
workspace_apps.health, is equal as a string to one of the codersdk
WorkspaceAppHealth constants.  This fails: the migration spells the
value (and the default) as "intializing" while the codersdk constant is
"initializing"; the two remaining values match. -/
theorem claim_C8_enum_value_divergence :
    Coderd.workspaceAppsHealthDefault ∈ Coderd.workspaceAppHealthEnumValues ∧
    Coderd.workspaceAppsHealthDefault ∉
      Coderd.codersdkWorkspaceAppHealthValues ∧
    "intializing" ∈ Coderd.workspaceAppHealthEnumValues ∧
    "intializing" ∉ Coderd.codersdkWorkspaceAppHealthValues ∧
    "initializing" ∈ Coderd.codersdkWorkspaceAppHealthValues ∧
    "healthy" ∈ Coderd.codersdkWorkspaceAppHealthValues ∧
    "unhealthy" ∈ Coderd.codersdkWorkspaceAppHealthValues := by
  decide

/-- Claim C9: convertWorkspaceBuild is claimed to return without
panicking for every combination of nil and non-nil workspaceOwner and
buildInitiator (with matching workspace and build), substituting
"unknown" for nil usernames.  This fails: with a non-nil owner and a
nil initiator the source dereferences the nil buildInitiator pointer
(the guard tests workspaceOwner instead of buildInitiator), modelled
here as a `none` result; with both pointers nil (or both non-nil) the
conversion does return. -/
theorem claim_C9_nil_initiator_dereference :
    Coderd.convertWorkspaceBuild (some { username := "alice" }) none
      { id := 1, ownerID := 2, name := "ws" }
      { id := 3, workspaceID := 1, templateVersionID := 4, buildNumber := 1,
        transition := "start", initiatorID := 5, reason := "initiator" } =
      none ∧
    Coderd.convertWorkspaceBuild none none
      { id := 1, ownerID := 2, name := "ws" }
      { id := 3, workspaceID := 1, templateVersionID := 4, buildNumber := 1,
        transition := "start", initiatorID := 5, reason := "initiator" } =
      some
        { id := 3, workspaceOwnerID := 2, workspaceOwnerName := "unknown",
          workspaceID := 1, workspaceName := "ws", templateVersionID := 4,
          buildNumber := 1, transition := "start", initiatorID := 5,
          initiatorUsername := "unknown", reason := "initiator" } := by
  constructor
  · rfl
  · rfl

/-- Claim C10: with an empty configured SCIMAPIKey,
scimVerifyAuthHeader is false for every Authorization header, and each
SCIM handler answers unauthorized and performs no database write,
whatever the request body, URL parameter, or database behaviour. -/
theorem claim_C10_scim_disabled_when_no_key (hdr : List Nat)
    (body : Option Scim.SCIMUser) (urlId : String)
    (createUser : String → String → Except Unit (String × String))
    (uuidParse : String → Option Nat) (getUserByID : Nat → Option Nat)
    (updateOk : Bool) :
    Scim.scimVerifyAuthHeader [] hdr = false ∧
    Scim.scimGetUsers [] hdr = (Scim.ScimResponse.unauthorized, []) ∧
    Scim.scimGetUser [] hdr = (Scim.ScimResponse.unauthorized, []) ∧
    Scim.scimPostUser [] hdr body createUser =
      (Scim.ScimResponse.unauthorized, []) ∧
    Scim.scimPatchUser [] hdr urlId body uuidParse getUserByID updateOk =
      (Scim.ScimResponse.unauthorized, []) :=
  ⟨rfl, rfl, rfl, rfl, rfl⟩

/-- Claim C1: in the concrete scenario of the spec and of TestTailnet,
two Engines each created with one /128 virtual address and the shared
relay map, whose node callbacks forward each descriptor to the other
Engine via UpdateNodes, converge to a relayed peer connection; a dial
from the second Engine to the first Engine's virtual address on a port
the first Engine is listening on succeeds for every timeout value, the
listener accepts the incoming stream, and data written on the stream is
received byte-for-byte at the listener. -/
theorem claim_C1_relayed_dial_scenario (timeout : Nat) (data : List Nat) :
    Tailnet.New 1 { addresses := [1001], relayMap := [1], logger := 1 } =
      Except.ok scenarioW1 ∧
    Tailnet.New 2 { addresses := [1002], relayMap := [1], logger := 2 } =
      Except.ok scenarioW2 ∧
    ∃ w1 w2 w1l s0 s1,
      w1 = Tailnet.UpdateNodes scenarioW1
        [Tailnet.localDescriptor scenarioW2] ∧
      w2 = Tailnet.UpdateNodes scenarioW2
        [Tailnet.localDescriptor scenarioW1] ∧
      (∃ pc, Tailnet.lookupPeerByAddr w2 1001 = some pc ∧
        pc.state = Tailnet.PeerState.relayed) ∧
      Tailnet.listen w1 35565 = Except.ok w1l ∧
      Tailnet.dial w2 1001 35565 timeout = Except.ok s0 ∧
      Tailnet.accept w1l (Tailnet.writeBytes s0 data) = Except.ok s1 ∧
      (Tailnet.readAll s1).1 = data :=
  ⟨rfl, rfl, _, _, _, _, _, rfl, rfl, ⟨_, rfl, rfl⟩, rfl, rfl, rfl, rfl⟩

/-- Claim C5: at every reachable state of one coordination session, no
two distinct participants own the same virtual address or the same
identity key, and no identity key is ever bound to two different
participants within the session. -/
theorem claim_C5_session_uniqueness (s : Tailnet.Session)
    (h : Tailnet.SessionReachable s) :
    (∀ p ∈ s.participants, ∀ q ∈ s.participants, p ≠ q →
      p.addr ≠ q.addr ∧ p.key ≠ q.key) ∧
    (∀ b ∈ s.keyHistory, ∀ b' ∈ s.keyHistory, b.1 = b'.1 → b.2 = b'.2) := by
  obtain ⟨hpw, hfun, -⟩ := Tailnet.sessionInv_reachable h
  refine ⟨?_, hfun⟩
  intro p hp q hq hne
  exact List.Pairwise.forall
    (fun a b hab => ⟨hab.1.symm, hab.2.symm⟩) hpw hp hq hne

/-- Witness for C5 at a concrete reachable session obtained by two
joins from the empty session. -/
theorem claim_C5_session_uniqueness_witness :
    (∀ p ∈ sessionW.participants, ∀ q ∈ sessionW.participants, p ≠ q →
      p.addr ≠ q.addr ∧ p.key ≠ q.key) ∧
    (∀ b ∈ sessionW.keyHistory, ∀ b' ∈ sessionW.keyHistory,
      b.1 = b'.1 → b.2 = b'.2) :=
  claim_C5_session_uniqueness sessionW
    (Tailnet.SessionReachable.step
      (Tailnet.SessionReachable.step Tailnet.SessionReachable.init
        (Tailnet.SessionStep.join _ 1 10 100 (by decide) (by decide)))
      (Tailnet.SessionStep.join _ 2 20 200 (by decide) (by decide)))
